import Mathlib

/-!
# Verification of `ShipRenderContext` (Floating Sandbox)

Shallow embedding of `src/Game/ShipRenderContext.cpp`, the per-ship GPU
rendering context. GPU buffers are modelled as Lean lists, the OpenGL calls
issued by the `Render*` helpers as an explicit list of `DrawOp` values, and the
state of the context (`mMaxMaxPlaneId`, the element buffers, the generic
texture bookkeeping) as a record that the operations transform.

Colors and texture vertices are modelled over `ℚ` (no arithmetic is ever
performed on them, they are pure payload), while the vector-field overlay
(`UploadVectors`), which performs trigonometric arithmetic, is modelled over
`ℝ`.
-/

namespace ShipRender

/-- `ShipRenderMode` (Structure / Texture), per the render-mode enumeration
used by `ShipRenderContext.cpp`. -/
inductive ShipRenderMode where
  | Structure
  | Texture
  deriving DecidableEq, Repr

/-- `DebugShipRenderMode` (None / Points / Springs / EdgeSprings / Wireframe),
per the debug-mode enumeration used by `ShipRenderContext.cpp`. -/
inductive DebugShipRenderMode where
  | None
  | Points
  | Springs
  | EdgeSprings
  | Wireframe
  deriving DecidableEq, Repr

/-- `VectorFieldRenderMode`: the rendering code only distinguishes `None` from
everything else; one representative non-`None` mode is kept. -/
inductive VectorFieldRenderMode where
  | None
  | PointVelocity
  deriving DecidableEq, Repr

/-- `vec4f` payload (colors, packed data); modelled over `ℚ` since the ship
render context performs no arithmetic on these values. -/
abbrev Vec4f := ℚ × ℚ × ℚ × ℚ

/-- `TextureRenderPolygonVertex`: 4 floats of packed data + 2 texture
coordinates + 4 floats of packed data (see the vertex-attribute layout in the
constructor, lines 220-222). -/
abbrev TextureRenderPolygonVertex := Vec4f × (ℚ × ℚ) × Vec4f

/-- `vec2f` positions/vectors of the vector-field overlay, which undergo
trigonometric arithmetic; modelled over `ℝ`.  A buffer coordinate that the
code computes by normalising the zero vector is NaN and is modelled as
`none` (see `normalise`). -/
abbrev Vec2f := ℝ × ℝ

/-- `glBufferSubData(target, offset, size, data)` on a buffer modelled as a
list: replaces the `count` slots starting at `startIndex` with the first
`count` entries of `data`, leaving all other slots unchanged. -/
def bufferSubData {α : Type} (buffer : List α) (data : List α)
    (startIndex count : Nat) : List α :=
  buffer.take startIndex ++ data.take count ++ buffer.drop (startIndex + count)

/-- The mutable state of one `ShipRenderContext` that the claims observe:
identity, `mMaxMaxPlaneId`, the render-mode flags, the CPU-side element
buffers and the generic-texture bookkeeping.  `recomputeCount` counts the
invocations of `OnViewModelUpdated` (each of which recomputes all six
depth-layer ortho matrices via `UpdateOrthoMatrices`);
`statsLastRenderedShipPlanes` is the shared statistics accumulator field
incremented at the end of `RenderEnd`. -/
structure ShipRenderContext where
  shipId : Nat
  shipCount : Nat
  pointCount : Nat
  maxMaxPlaneId : Nat
  recomputeCount : Nat
  statsLastRenderedShipPlanes : Nat
  shipRenderMode : ShipRenderMode
  debugShipRenderMode : DebugShipRenderMode
  vectorFieldRenderMode : VectorFieldRenderMode
  showStressedSprings : Bool
  pointColorBuffer : List Vec4f
  pointPlaneIdBuffer : List Nat
  pointElementBuffer : List Nat
  springElementBuffer : List (Nat × Nat)
  ropeElementBuffer : List (Nat × Nat)
  triangleElementBuffer : List (Nat × Nat × Nat)
  stressedSpringElementBuffer : List (Nat × Nat)
  ephemeralPoints : List Nat
  genericTextureConnectedComponents : List (List TextureRenderPolygonVertex)
  genericTextureMaxVertexBufferSize : Nat
  genericTextureAllocatedVertexBufferSize : Nat
  vectorArrowPointPositionBuffer : List (Option Vec2f)
  vectorArrowColor : Vec4f

/-- The `ShipRenderContext` constructor: `mMaxMaxPlaneId` starts at `0`, the
point VBOs are allocated with `pointCount` (uninitialized, modelled as
default-filled) slots, the element buffers start empty, the generic-texture
bookkeeping starts at zero, and `OnViewModelUpdated()` is invoked once at the
end (line 276), so `recomputeCount` starts at `1`. -/
def mkShipRenderContext (shipId shipCount pointCount : Nat)
    (shipRenderMode : ShipRenderMode) (debugShipRenderMode : DebugShipRenderMode)
    (vectorFieldRenderMode : VectorFieldRenderMode)
    (showStressedSprings : Bool) : ShipRenderContext :=
  { shipId := shipId
    shipCount := shipCount
    pointCount := pointCount
    maxMaxPlaneId := 0
    recomputeCount := 1
    statsLastRenderedShipPlanes := 0
    shipRenderMode := shipRenderMode
    debugShipRenderMode := debugShipRenderMode
    vectorFieldRenderMode := vectorFieldRenderMode
    showStressedSprings := showStressedSprings
    pointColorBuffer := List.replicate pointCount default
    pointPlaneIdBuffer := List.replicate pointCount 0
    pointElementBuffer := []
    springElementBuffer := []
    ropeElementBuffer := []
    triangleElementBuffer := []
    stressedSpringElementBuffer := []
    ephemeralPoints := []
    genericTextureConnectedComponents := []
    genericTextureMaxVertexBufferSize := 0
    genericTextureAllocatedVertexBufferSize := 0
    vectorArrowPointPositionBuffer := []
    vectorArrowColor := default }

/-- `ShipRenderContext::UploadShipPointColorRange` (lines 531-541):
`assert(startIndex + count <= mPointCount)` (fail fast on contract violation,
modelled as `none`), then `glBufferSubData` of `count` colors at offset
`startIndex` into the color VBO. -/
def uploadShipPointColorRange (s : ShipRenderContext) (color : List Vec4f)
    (startIndex count : Nat) : Option ShipRenderContext :=
  if startIndex + count ≤ s.pointCount then
    some { s with
           pointColorBuffer := bufferSubData s.pointColorBuffer color startIndex count }
  else
    none

/-- `ShipRenderContext::UploadPointPlaneIds` (lines 564-582): uploads the
whole plane-id buffer, then, if the supplied `maxMaxPlaneId` *differs* from
the stored one (`!=` comparison, line 574), stores the supplied value and
invokes `OnViewModelUpdated()` (one recomputation of all six depth-layer
ortho matrices). -/
def uploadPointPlaneIds (s : ShipRenderContext) (planeId : List Nat)
    (maxMaxPlaneId : Nat) : ShipRenderContext :=
  let s := { s with
             pointPlaneIdBuffer := bufferSubData s.pointPlaneIdBuffer planeId 0 s.pointCount }
  if maxMaxPlaneId ≠ s.maxMaxPlaneId then
    { s with
      maxMaxPlaneId := maxMaxPlaneId
      recomputeCount := s.recomputeCount + 1 }
  else
    s

/-- `ShipRenderContext::RenderStart` (lines 504-514): clears the
generic-texture connected components, resizes the component list to
`mMaxMaxPlaneId + 1000` (empty components), and resets the per-frame peak
tracker `mGenericTextureMaxVertexBufferSize` to `0`. -/
def renderStart (s : ShipRenderContext) : ShipRenderContext :=
  { s with
    genericTextureConnectedComponents := List.replicate (s.maxMaxPlaneId + 1000) []
    genericTextureMaxVertexBufferSize := 0 }

/-- Modelled from the spec: the generic-texture upload entry point (declared
in the header, not under `src/`) appends a vertex sequence to the connected
component at the given index and "tracks peak usage per frame":
`mGenericTextureMaxVertexBufferSize` becomes the largest per-component
vertex-buffer size seen since the last `RenderStart`. -/
def uploadGenericTexture (s : ShipRenderContext) (connectedComponentIndex : Nat)
    (vertices : List TextureRenderPolygonVertex) : ShipRenderContext :=
  let components := s.genericTextureConnectedComponents
  let newComponent := components.getD connectedComponentIndex [] ++ vertices
  { s with
    genericTextureConnectedComponents := components.set connectedComponentIndex newComponent
    genericTextureMaxVertexBufferSize :=
      max s.genericTextureMaxVertexBufferSize newComponent.length }

/-- One draw operation issued by a `Render*` helper (the `glDrawElements` /
`glDrawArrays` call it ends with), tagged with the element/vertex count taken
from the corresponding buffer. -/
inductive DrawOp where
  | pointElements (count : Nat)
  | springElements (withTexture : Bool) (count : Nat)
  | ropeElements (count : Nat)
  | triangleElements (withTexture : Bool) (count : Nat)
  | stressedSpringElements (count : Nat)
  | ephemeralPoints (count : Nat)
  | genericTextures (vertexCount : Nat)
  | vectors (count : Nat)
  deriving DecidableEq, Repr

/-- Whether a draw operation is a rope-element draw. -/
def DrawOp.isRopeDraw : DrawOp → Bool
  | .ropeElements _ => true
  | _ => false

/-- Whether a draw operation is a spring-element draw. -/
def DrawOp.isSpringDraw : DrawOp → Bool
  | .springElements _ _ => true
  | _ => false

/-- `ShipRenderContext::RenderPointElements` (lines 854-868): unconditionally
issues one `GL_POINTS` draw of the point-element buffer. -/
def renderPointElements (s : ShipRenderContext) : List DrawOp :=
  [.pointElements s.pointElementBuffer.length]

/-- `ShipRenderContext::RenderSpringElements` (lines 870-901): unconditionally
issues one `GL_LINES` draw of the spring-element buffer, textured or not. -/
def renderSpringElements (s : ShipRenderContext) (withTexture : Bool) : List DrawOp :=
  [.springElements withTexture s.springElementBuffer.length]

/-- `ShipRenderContext::RenderRopeElements` (lines 903-920): unconditionally
issues one `GL_LINES` draw of the rope-element buffer. -/
def renderRopeElements (s : ShipRenderContext) : List DrawOp :=
  [.ropeElements s.ropeElementBuffer.length]

/-- `ShipRenderContext::RenderTriangleElements` (lines 922-952):
unconditionally issues one `GL_TRIANGLES` draw of the triangle-element buffer,
textured or not. -/
def renderTriangleElements (s : ShipRenderContext) (withTexture : Bool) : List DrawOp :=
  [.triangleElements withTexture s.triangleElementBuffer.length]

/-- `ShipRenderContext::RenderStressedSpringElements` (lines 954-976): issues
one draw only when the stressed-spring buffer is non-empty. -/
def renderStressedSpringElements (s : ShipRenderContext) : List DrawOp :=
  if s.stressedSpringElementBuffer.isEmpty then []
  else [.stressedSpringElements s.stressedSpringElementBuffer.length]

/-- `ShipRenderContext::RenderEphemeralPoints` (lines 1019-1039): issues one
draw only when the ephemeral-point buffer is non-empty. -/
def renderEphemeralPoints (s : ShipRenderContext) : List DrawOp :=
  if s.ephemeralPoints.isEmpty then []
  else [.ephemeralPoints s.ephemeralPoints.length]

/-- `ShipRenderContext::RenderGenericTextures` (lines 978-1017) for one
connected component: if its vertex buffer is non-empty, reallocate the GPU
vertex buffer to `mGenericTextureMaxVertexBufferSize` whenever that differs
(`!=`, line 989) from `mGenericTextureAllocatedVertexBufferSize`, then issue
one `GL_TRIANGLES` draw of the component's vertices. -/
def renderGenericTextures (s : ShipRenderContext)
    (connectedComponent : List TextureRenderPolygonVertex) :
    ShipRenderContext × List DrawOp :=
  if connectedComponent.isEmpty then (s, [])
  else
    let s :=
      if s.genericTextureAllocatedVertexBufferSize ≠ s.genericTextureMaxVertexBufferSize then
        { s with
          genericTextureAllocatedVertexBufferSize := s.genericTextureMaxVertexBufferSize }
      else s
    (s, [.genericTextures connectedComponent.length])

/-- The `for` loop over `mGenericTextureConnectedComponents` in `RenderEnd`
(lines 827-830): renders each connected component in component-list order,
threading the context state through. -/
def renderGenericTexturesLoop (s : ShipRenderContext)
    (components : List (List TextureRenderPolygonVertex)) :
    ShipRenderContext × List DrawOp :=
  match components with
  | [] => (s, [])
  | component :: rest =>
      let r1 := renderGenericTextures s component
      let r2 := renderGenericTexturesLoop r1.1 rest
      (r2.1, r1.2 ++ r2.2)

/-- `ShipRenderContext::RenderVectors` (lines 1041-1070): unconditionally
issues one `GL_LINES` draw of the vector-arrow buffer. -/
def renderVectors (s : ShipRenderContext) : List DrawOp :=
  [.vectors s.vectorArrowPointPositionBuffer.length]

/-- `ShipRenderContext::RenderEnd` (lines 712-850).  Issues, in program order:
points (debug mode `Points` only); triangles (debug `Wireframe`, or debug
`None` with ship mode `Structure` or `Texture`; textured iff ship mode
`Texture`); ropes when debug ≠ `None` or ship mode ≠ `Structure`; springs
(debug `Springs`/`EdgeSprings`, or debug `None` with ship mode `Structure` or
`Texture`; textured iff debug `None` and ship mode `Texture`); ropes again
when debug = `None` and ship mode = `Structure`; stressed springs (debug
`None` and toggle on); ephemeral points; the generic-texture component loop;
vectors when the vector-field mode ≠ `None`.  Finally adds
`mMaxMaxPlaneId + 1` to the shared statistics accumulator. -/
def renderEnd (s : ShipRenderContext) : ShipRenderContext × List DrawOp :=
  let ops1 :=
    if s.debugShipRenderMode = DebugShipRenderMode.Points then
      renderPointElements s
    else []
  let ops2 :=
    if s.debugShipRenderMode = DebugShipRenderMode.Wireframe
        ∨ (s.debugShipRenderMode = DebugShipRenderMode.None
            ∧ (s.shipRenderMode = ShipRenderMode.Structure
                ∨ s.shipRenderMode = ShipRenderMode.Texture)) then
      renderTriangleElements s (s.shipRenderMode = ShipRenderMode.Texture)
    else []
  let ops3 :=
    if s.debugShipRenderMode ≠ DebugShipRenderMode.None
        ∨ s.shipRenderMode ≠ ShipRenderMode.Structure then
      renderRopeElements s
    else []
  let ops4 :=
    if s.debugShipRenderMode = DebugShipRenderMode.Springs
        ∨ s.debugShipRenderMode = DebugShipRenderMode.EdgeSprings
        ∨ (s.debugShipRenderMode = DebugShipRenderMode.None
            ∧ (s.shipRenderMode = ShipRenderMode.Structure
                ∨ s.shipRenderMode = ShipRenderMode.Texture)) then
      renderSpringElements s
        (s.debugShipRenderMode = DebugShipRenderMode.None
          ∧ s.shipRenderMode = ShipRenderMode.Texture)
    else []
  let ops5 :=
    if s.debugShipRenderMode = DebugShipRenderMode.None
        ∧ s.shipRenderMode = ShipRenderMode.Structure then
      renderRopeElements s
    else []
  let ops6 :=
    if s.debugShipRenderMode = DebugShipRenderMode.None ∧ s.showStressedSprings then
      renderStressedSpringElements s
    else []
  let ops7 := renderEphemeralPoints s
  let r8 := renderGenericTexturesLoop s s.genericTextureConnectedComponents
  let ops9 :=
    if s.vectorFieldRenderMode ≠ VectorFieldRenderMode.None then
      renderVectors s
    else []
  ({ r8.1 with
     statsLastRenderedShipPlanes :=
       r8.1.statsLastRenderedShipPlanes + s.maxMaxPlaneId + 1 },
   ops1 ++ ops2 ++ ops3 ++ ops4 ++ ops5 ++ ops6 ++ ops7 ++ r8.2 ++ ops9)

/-! ## Vector-field overlay (`UploadVectors`) -/

/-- `vec2f` addition (GameCore `Vectors.h`). -/
def vadd (a b : Vec2f) : Vec2f := (a.1 + b.1, a.2 + b.2)

/-- `vec2f` scaling by a scalar (GameCore `Vectors.h`). -/
def smul (a : Vec2f) (t : ℝ) : Vec2f := (a.1 * t, a.2 * t)

/-- `vec2f::dot` (GameCore `Vectors.h`). -/
def dot (a b : Vec2f) : ℝ := a.1 * b.1 + a.2 * b.2

/-- `vec2f` length: `sqrt(x*x + y*y)` (GameCore `Vectors.h`). -/
noncomputable def vlength (v : Vec2f) : ℝ := Real.sqrt (v.1 * v.1 + v.2 * v.2)

open scoped Classical in
/-- Modelled from the spec: `vec2f::normalise` (GameCore `Vectors.h`, not
under `src/`) divides the vector by its length; the spec (§4.5, §7) states
that normalising the zero vector yields NaN ("arrowhead directions from
normalizing a zero vector — caller must guard against NaN propagation"); the
NaN result of the division by zero is modelled as `none`. -/
noncomputable def normalise (v : Vec2f) : Option Vec2f :=
  if vlength v = 0 then none
  else some (v.1 / vlength v, v.2 / vlength v)

/-- `CosAlphaLeftRight = cos(-2π/8)` (line 661). -/
noncomputable def CosAlphaLeftRight : ℝ := Real.cos (-2 * Real.pi / 8)

/-- `SinAlphaLeft = sin(-2π/8)` (line 662). -/
noncomputable def SinAlphaLeft : ℝ := Real.sin (-2 * Real.pi / 8)

/-- `SinAlphaRight = -SinAlphaLeft` (line 663). -/
noncomputable def SinAlphaRight : ℝ := -SinAlphaLeft

/-- `XMatrixLeft` (line 665). -/
noncomputable def XMatrixLeft : Vec2f := (CosAlphaLeftRight, SinAlphaLeft)

/-- `YMatrixLeft` (line 666). -/
noncomputable def YMatrixLeft : Vec2f := (-SinAlphaLeft, CosAlphaLeftRight)

/-- `XMatrixRight` (line 667). -/
noncomputable def XMatrixRight : Vec2f := (CosAlphaLeftRight, SinAlphaRight)

/-- `YMatrixRight` (line 668). -/
noncomputable def YMatrixRight : Vec2f := (-SinAlphaRight, CosAlphaLeftRight)

/-- The six buffer entries `ShipRenderContext::UploadVectors` (lines 677-693)
pushes for one sample: stem start and endpoint, then for each of the left and
right arrowhead strokes the stem endpoint and the endpoint displaced by the
normalised rotated direction scaled by `0.2`. -/
noncomputable def uploadVectorsSample (position vector : Vec2f)
    (lengthAdjustment : ℝ) : List (Option Vec2f) :=
  let stemEndpoint := vadd position (smul vector lengthAdjustment)
  let leftDir := normalise (-(dot vector XMatrixLeft), -(dot vector YMatrixLeft))
  let rightDir := normalise (-(dot vector XMatrixRight), -(dot vector YMatrixRight))
  [some position, some stemEndpoint,
   some stemEndpoint, leftDir.map (fun d => vadd stemEndpoint (smul d 0.2)),
   some stemEndpoint, rightDir.map (fun d => vadd stemEndpoint (smul d 0.2))]

/-- `ShipRenderContext::UploadVectors` (lines 654-710): rebuilds the
vector-arrow point buffer from the `count` position/vector sample pairs and
stores the arrow color. -/
noncomputable def uploadVectors (s : ShipRenderContext)
    (samples : List (Vec2f × Vec2f)) (lengthAdjustment : ℝ) (color : Vec4f) :
    ShipRenderContext :=
  { s with
    vectorArrowPointPositionBuffer :=
      samples.flatMap fun pv => uploadVectorsSample pv.1 pv.2 lengthAdjustment
    vectorArrowColor := color }

/-- The length of the line segment from `a` to `b` (used to state the
arrowhead-stroke length property). -/
noncomputable def segmentLength (a b : Vec2f) : ℝ :=
  vlength (b.1 - a.1, b.2 - a.2)

/-! ## Depth-layer projection (`UpdateOrthoMatrices`) -/

/-- `ShipRegionZStart` (line 301). -/
def shipRegionZStart : ℚ := 1

/-- `ShipRegionZWidth` (line 302). -/
def shipRegionZWidth : ℚ := -2

/-- `NLayers` (line 304). -/
def nLayers : Nat := 6

/-- The shader programs that receive an ortho matrix in
`UpdateOrthoMatrices`. -/
inductive ProgramType where
  | ShipRopes
  | ShipTrianglesColor
  | ShipTrianglesTexture
  | ShipStressedSprings
  | ShipPointsColor
  | ShipGenericTextures
  | ShipVectors
  deriving DecidableEq, Repr

/-- `ShipRenderContext::UpdateOrthoMatrices` (lines 287-420): the sequence of
(program, layer-index) ortho-matrix assignments, in source order — layer 0
ropes, layer 1 springs+triangles (both the color and the texture program),
layer 2 stressed springs, layer 3 points, layer 4 generic textures, layer 5
vectors. -/
def updateOrthoMatrices : List (ProgramType × Nat) :=
  [(ProgramType.ShipRopes, 0),
   (ProgramType.ShipTrianglesColor, 1),
   (ProgramType.ShipTrianglesTexture, 1),
   (ProgramType.ShipStressedSprings, 2),
   (ProgramType.ShipPointsColor, 3),
   (ProgramType.ShipGenericTextures, 4),
   (ProgramType.ShipVectors, 5)]

/-- The six fixed depth layers, in the order the source comment (lines
290-298) lists them. -/
inductive ShipLayer where
  | Ropes
  | SpringsTriangles
  | StressedSprings
  | Points
  | GenericTextures
  | Vectors
  deriving DecidableEq, Repr

/-- The fixed layer index each layer receives in `UpdateOrthoMatrices`
(lines 290-298): 0 ropes, 1 springs+triangles, 2 stressed springs, 3 points,
4 generic textures, 5 vectors. -/
def layerIndex : ShipLayer → Nat
  | .Ropes => 0
  | .SpringsTriangles => 1
  | .StressedSprings => 2
  | .Points => 3
  | .GenericTextures => 4
  | .Vectors => 5

/-- Modelled from the spec: `ViewModel::CalculateShipOrthoMatrix` (not under
`src/`) "partition[s] one shared normalized depth range into
`shipCount × (maxMaxPlaneId+1) × 6` equal depth slots".  The ortho matrix for
ship `shipId`, depth-plane `plane` and layer `layer` is characterised by the
depth it assigns to that slot, inside the ship region starting at
`ShipRegionZStart = 1` (the far end of the normalized depth range) with width
`ShipRegionZWidth = -2` (running towards near, `-1`): slot index `k` of `N`
total slots maps to depth `1 - 2*(k+1)/N`, so a larger slot index means a
depth nearer the viewer. -/
def shipOrthoMatrixDepth (shipCount maxMaxPlaneId shipId plane layer : Nat) : ℚ :=
  shipRegionZStart + shipRegionZWidth *
    (((shipId * (maxMaxPlaneId + 1) + plane) * nLayers + layer + 1 : Nat) : ℚ) /
    ((shipCount * (maxMaxPlaneId + 1) * nLayers : Nat) : ℚ)

/-! ## Concrete contexts and traces used by the counterexamples -/

/-- A freshly constructed context for a 4-point ship, ship render mode
`Structure`, debug mode `None`, no vector field, stressed springs off. -/
def exampleContext : ShipRenderContext :=
  mkShipRenderContext 0 1 4 ShipRenderMode.Structure DebugShipRenderMode.None
    VectorFieldRenderMode.None false

/-- `exampleContext` after `UploadPointPlaneIds` with supplied
`maxMaxPlaneId = 5`. -/
def planeIdTrace1 : ShipRenderContext :=
  uploadPointPlaneIds exampleContext (List.replicate 4 5) 5

/-- `planeIdTrace1` after a further `UploadPointPlaneIds` with supplied
`maxMaxPlaneId = 3`, strictly smaller than the stored `5`. -/
def planeIdTrace2 : ShipRenderContext :=
  uploadPointPlaneIds planeIdTrace1 (List.replicate 4 3) 3

/-- The end-to-end scenario ship of the spec: 4 points, 3 springs, 1
triangle, one rope, render mode `Structure`, debug `None`, stressed springs
off, no vector field. -/
def structureModeContext : ShipRenderContext :=
  { exampleContext with
    pointElementBuffer := [0, 1, 2, 3]
    springElementBuffer := [(0, 1), (1, 2), (2, 3)]
    ropeElementBuffer := [(0, 1)]
    triangleElementBuffer := [(0, 1, 2)] }

/-- One generic-texture frame: `RenderStart`, one generic-texture upload of
`vertexCount` vertices into connected component `0`, then `RenderEnd`;
returns the resulting context. -/
def genericTextureFrame (s : ShipRenderContext) (vertexCount : Nat) :
    ShipRenderContext :=
  (renderEnd (uploadGenericTexture (renderStart s) 0
    (List.replicate vertexCount default))).1

/-- `exampleContext` after a frame whose generic-texture peak is 12
vertices. -/
def genericTextureTrace1 : ShipRenderContext := genericTextureFrame exampleContext 12

/-- `genericTextureTrace1` after a second frame whose generic-texture peak is
only 6 vertices. -/
def genericTextureTrace2 : ShipRenderContext := genericTextureFrame genericTextureTrace1 6

/-- The mid-frame state of the first generic-texture frame: `RenderStart`
followed by one 6-vertex upload into connected component `0`, before
`RenderEnd`. -/
def genericTextureUploadedContext : ShipRenderContext :=
  uploadGenericTexture (renderStart exampleContext) 0 (List.replicate 6 default)

/-! ## Helper lemmas -/

theorem bufferSubData_length {α : Type} (buffer data : List α)
    (startIndex count : Nat) (h : startIndex + count ≤ buffer.length)
    (hd : count ≤ data.length) :
    (bufferSubData buffer data startIndex count).length = buffer.length := by
  simp only [bufferSubData, List.length_append, List.length_take, List.length_drop]
  omega

theorem bufferSubData_getElem_inside {α : Type} (buffer data : List α)
    (startIndex count i : Nat) (h : startIndex + count ≤ buffer.length)
    (hd : count ≤ data.length)
    (h1 : startIndex ≤ i) (h2 : i < startIndex + count) :
    (bufferSubData buffer data startIndex count)[i]? = data[i - startIndex]? := by
  unfold bufferSubData
  rw [List.getElem?_append_left (by simp; omega),
      List.getElem?_append_right (by simp; omega)]
  rw [show (List.take startIndex buffer).length = startIndex by simp; omega]
  rw [List.getElem?_take_of_lt (by omega)]

theorem bufferSubData_getElem_left {α : Type} (buffer data : List α)
    (startIndex count i : Nat) (h : startIndex ≤ buffer.length)
    (h1 : i < startIndex) :
    (bufferSubData buffer data startIndex count)[i]? = buffer[i]? := by
  unfold bufferSubData
  rw [List.getElem?_append_left (by simp; omega),
      List.getElem?_append_left (by simp; omega),
      List.getElem?_take_of_lt h1]

theorem bufferSubData_getElem_right {α : Type} (buffer data : List α)
    (startIndex count i : Nat) (h : startIndex + count ≤ buffer.length)
    (hd : count ≤ data.length) (h1 : startIndex + count ≤ i) :
    (bufferSubData buffer data startIndex count)[i]? = buffer[i]? := by
  unfold bufferSubData
  rw [List.getElem?_append_right (by simp; omega), List.getElem?_drop]
  congr 1
  simp
  omega

/-! ## C1 / C4: `UploadPointPlaneIds` and the stored max-max plane id -/

/-- **C1** (corrected).  A call to `UploadPointPlaneIds` whose supplied
`maxMaxPlaneId` strictly exceeds the stored one triggers exactly one
recomputation of the depth-layer matrices (one `OnViewModelUpdated` call) and
a call supplying an equal value triggers none — but, because the code
compares with `!=` rather than `>`, a call supplying a strictly smaller value
also triggers exactly one recomputation. -/
theorem uploadPointPlaneIds_recompute_trichotomy
    (s : ShipRenderContext) (planeId : List Nat) (v : Nat) :
    (s.maxMaxPlaneId < v →
      (uploadPointPlaneIds s planeId v).recomputeCount = s.recomputeCount + 1) ∧
    (v = s.maxMaxPlaneId →
      (uploadPointPlaneIds s planeId v).recomputeCount = s.recomputeCount) ∧
    (v < s.maxMaxPlaneId →
      (uploadPointPlaneIds s planeId v).recomputeCount = s.recomputeCount + 1) := by
  refine ⟨fun h => ?_, fun h => ?_, fun h => ?_⟩ <;>
    simp only [uploadPointPlaneIds] <;> split <;> simp_all

/-- Witness for `uploadPointPlaneIds_recompute_trichotomy`: on the fresh
4-point context (stored value `0`), supplying `5` triggers exactly one
recomputation. -/
theorem uploadPointPlaneIds_recompute_trichotomy_witness :
    exampleContext.maxMaxPlaneId < 5 ∧
    (uploadPointPlaneIds exampleContext (List.replicate 4 5) 5).recomputeCount =
      exampleContext.recomputeCount + 1 :=
  ⟨by decide,
   (uploadPointPlaneIds_recompute_trichotomy exampleContext
      (List.replicate 4 5) 5).1 (by decide)⟩

/-- **C1** counterexample.  After uploading `maxMaxPlaneId = 5`, a call
supplying `3` — strictly smaller than the stored `5` — still triggers a
recomputation, refuting "a call supplying a value equal to or smaller than
the stored value triggers no recomputation". -/
theorem uploadPointPlaneIds_smaller_value_recomputes :
    3 < planeIdTrace1.maxMaxPlaneId ∧
    planeIdTrace2.recomputeCount = planeIdTrace1.recomputeCount + 1 := by
  decide

/-- **C4** (corrected).  `UploadPointPlaneIds` stores exactly the supplied
value, so the stored max-max plane id is non-decreasing across a call
precisely when the supplied value is at least the stored one; the code does
not itself enforce monotonicity. -/
theorem uploadPointPlaneIds_stores_supplied_value
    (s : ShipRenderContext) (planeId : List Nat) (v : Nat) :
    (uploadPointPlaneIds s planeId v).maxMaxPlaneId = v ∧
    (s.maxMaxPlaneId ≤ v →
      s.maxMaxPlaneId ≤ (uploadPointPlaneIds s planeId v).maxMaxPlaneId) := by
  constructor
  · simp only [uploadPointPlaneIds]
    split <;> simp_all
  · intro h
    simp only [uploadPointPlaneIds]
    split <;> simp_all

/-- Witness for `uploadPointPlaneIds_stores_supplied_value` at the fresh
context and supplied value `5`. -/
theorem uploadPointPlaneIds_stores_supplied_value_witness :
    (uploadPointPlaneIds exampleContext (List.replicate 4 5) 5).maxMaxPlaneId = 5 ∧
    (exampleContext.maxMaxPlaneId ≤ 5 ∧
      exampleContext.maxMaxPlaneId ≤
        (uploadPointPlaneIds exampleContext (List.replicate 4 5) 5).maxMaxPlaneId) :=
  ⟨(uploadPointPlaneIds_stores_supplied_value exampleContext
      (List.replicate 4 5) 5).1,
   by decide,
   (uploadPointPlaneIds_stores_supplied_value exampleContext
      (List.replicate 4 5) 5).2 (by decide)⟩

/-- **C4** counterexample.  After uploading `maxMaxPlaneId = 5`, the call
supplying `3` leaves the stored value at `3 < 5`: the stored max-max plane id
decreased across a call, refuting monotonic non-decrease over the context's
lifetime. -/
theorem maxMaxPlaneId_not_monotonic :
    planeIdTrace2.maxMaxPlaneId < planeIdTrace1.maxMaxPlaneId := by
  decide

/-! ## C8: `UploadShipPointColorRange` -/

/-- **C8** (confirmed).  With `startIndex + count ≤ pointCount` and `count`
supplied colors, `UploadShipPointColorRange` succeeds and replaces exactly
the color-buffer slots in `[startIndex, startIndex+count)` with the supplied
values, leaving every other slot unchanged; with
`startIndex + count > pointCount` the call fails fast (the
`assert(startIndex + count <= mPointCount)` contract violation). -/
theorem uploadShipPointColorRange_spec
    (s : ShipRenderContext) (color : List Vec4f) (startIndex count : Nat)
    (hbuf : s.pointColorBuffer.length = s.pointCount)
    (hcol : count ≤ color.length) :
    (startIndex + count ≤ s.pointCount →
      ∃ s', uploadShipPointColorRange s color startIndex count = some s' ∧
        s'.pointColorBuffer.length = s.pointCount ∧
        (∀ i, startIndex ≤ i → i < startIndex + count →
          s'.pointColorBuffer[i]? = color[i - startIndex]?) ∧
        (∀ i, i < startIndex ∨ startIndex + count ≤ i →
          s'.pointColorBuffer[i]? = s.pointColorBuffer[i]?)) ∧
    (s.pointCount < startIndex + count →
      uploadShipPointColorRange s color startIndex count = none) := by
  constructor
  · intro h
    rw [uploadShipPointColorRange, if_pos h]
    refine ⟨_, rfl, ?_, ?_, ?_⟩
    · simpa [hbuf] using
        bufferSubData_length s.pointColorBuffer color startIndex count
          (by omega) hcol
    · intro i h1 h2
      exact bufferSubData_getElem_inside s.pointColorBuffer color startIndex
        count i (by omega) hcol h1 h2
    · intro i hi
      rcases hi with hi | hi
      · exact bufferSubData_getElem_left s.pointColorBuffer color startIndex
          count i (by omega) hi
      · exact bufferSubData_getElem_right s.pointColorBuffer color startIndex
          count i (by omega) hcol hi
  · intro h
    rw [uploadShipPointColorRange, if_neg (by omega)]

/-- Witness for `uploadShipPointColorRange_spec`: replacing slots `[1, 3)` of
the fresh 4-point context with two supplied colors. -/
theorem uploadShipPointColorRange_spec_witness :
    exampleContext.pointColorBuffer.length = exampleContext.pointCount ∧
    2 ≤ ([((1 : ℚ), (0 : ℚ), (0 : ℚ), (1 : ℚ)),
          ((0 : ℚ), (1 : ℚ), (0 : ℚ), (1 : ℚ))] : List Vec4f).length ∧
    (1 + 2 ≤ exampleContext.pointCount →
      ∃ s', uploadShipPointColorRange exampleContext
          [((1 : ℚ), (0 : ℚ), (0 : ℚ), (1 : ℚ)),
           ((0 : ℚ), (1 : ℚ), (0 : ℚ), (1 : ℚ))] 1 2 = some s' ∧
        s'.pointColorBuffer.length = exampleContext.pointCount ∧
        (∀ i, 1 ≤ i → i < 1 + 2 →
          s'.pointColorBuffer[i]? =
            ([((1 : ℚ), (0 : ℚ), (0 : ℚ), (1 : ℚ)),
              ((0 : ℚ), (1 : ℚ), (0 : ℚ), (1 : ℚ))] : List Vec4f)[i - 1]?) ∧
        (∀ i, i < 1 ∨ 1 + 2 ≤ i →
          s'.pointColorBuffer[i]? = exampleContext.pointColorBuffer[i]?)) :=
  ⟨by decide, by decide,
   (uploadShipPointColorRange_spec exampleContext
      [((1 : ℚ), (0 : ℚ), (0 : ℚ), (1 : ℚ)),
       ((0 : ℚ), (1 : ℚ), (0 : ℚ), (1 : ℚ))] 1 2 (by decide) (by decide)).1⟩

/-! ## `RenderEnd`: helper lemmas -/

theorem renderGenericTextures_ops (s : ShipRenderContext)
    (cc : List TextureRenderPolygonVertex) :
    (renderGenericTextures s cc).2 =
      if cc.isEmpty then [] else [DrawOp.genericTextures cc.length] := by
  unfold renderGenericTextures
  split <;> simp

theorem renderGenericTexturesLoop_ops
    (ccs : List (List TextureRenderPolygonVertex)) : ∀ s : ShipRenderContext,
    (renderGenericTexturesLoop s ccs).2 =
      ccs.filterMap fun cc =>
        if cc.isEmpty then none else some (DrawOp.genericTextures cc.length) := by
  induction ccs with
  | nil => intro s; rfl
  | cons cc rest ih =>
      intro s
      simp only [renderGenericTexturesLoop, renderGenericTextures_ops, ih,
        List.filterMap_cons]
      split <;> simp_all

theorem renderGenericTexturesLoop_allocated
    (ccs : List (List TextureRenderPolygonVertex)) : ∀ s : ShipRenderContext,
    (renderGenericTexturesLoop s ccs).1.genericTextureAllocatedVertexBufferSize =
      if ccs.any (fun cc => !cc.isEmpty) then
        s.genericTextureMaxVertexBufferSize
      else s.genericTextureAllocatedVertexBufferSize := by
  induction ccs with
  | nil => intro s; rfl
  | cons cc rest ih =>
      intro s
      by_cases hcc : cc.isEmpty = true
      · rw [show ((cc :: rest).any fun cc => !cc.isEmpty) =
              (rest.any fun cc => !cc.isEmpty) by simp [hcc]]
        simp [renderGenericTexturesLoop, renderGenericTextures, hcc, ih]
      · simp only [renderGenericTexturesLoop, renderGenericTextures, hcc,
          if_neg, Bool.false_eq_true, ih, List.any_cons]
        split_ifs <;> simp_all

/-- The list of draw operations `RenderEnd` issues, with every `Render*`
helper expanded and the generic-texture loop replaced by its `filterMap`
characterisation. -/
theorem renderEnd_ops (s : ShipRenderContext) :
    (renderEnd s).2 =
      (if s.debugShipRenderMode = DebugShipRenderMode.Points
        then [DrawOp.pointElements s.pointElementBuffer.length] else []) ++
      (if s.debugShipRenderMode = DebugShipRenderMode.Wireframe
          ∨ (s.debugShipRenderMode = DebugShipRenderMode.None
              ∧ (s.shipRenderMode = ShipRenderMode.Structure
                  ∨ s.shipRenderMode = ShipRenderMode.Texture))
        then [DrawOp.triangleElements
                (s.shipRenderMode = ShipRenderMode.Texture)
                s.triangleElementBuffer.length] else []) ++
      (if s.debugShipRenderMode ≠ DebugShipRenderMode.None
          ∨ s.shipRenderMode ≠ ShipRenderMode.Structure
        then [DrawOp.ropeElements s.ropeElementBuffer.length] else []) ++
      (if s.debugShipRenderMode = DebugShipRenderMode.Springs
          ∨ s.debugShipRenderMode = DebugShipRenderMode.EdgeSprings
          ∨ (s.debugShipRenderMode = DebugShipRenderMode.None
              ∧ (s.shipRenderMode = ShipRenderMode.Structure
                  ∨ s.shipRenderMode = ShipRenderMode.Texture))
        then [DrawOp.springElements
                (s.debugShipRenderMode = DebugShipRenderMode.None
                  ∧ s.shipRenderMode = ShipRenderMode.Texture)
                s.springElementBuffer.length] else []) ++
      (if s.debugShipRenderMode = DebugShipRenderMode.None
          ∧ s.shipRenderMode = ShipRenderMode.Structure
        then [DrawOp.ropeElements s.ropeElementBuffer.length] else []) ++
      (if s.debugShipRenderMode = DebugShipRenderMode.None ∧ s.showStressedSprings
        then (if s.stressedSpringElementBuffer.isEmpty then []
              else [DrawOp.stressedSpringElements
                      s.stressedSpringElementBuffer.length]) else []) ++
      (if s.ephemeralPoints.isEmpty then []
        else [DrawOp.ephemeralPoints s.ephemeralPoints.length]) ++
      (s.genericTextureConnectedComponents.filterMap fun cc =>
        if cc.isEmpty then none else some (DrawOp.genericTextures cc.length)) ++
      (if s.vectorFieldRenderMode ≠ VectorFieldRenderMode.None
        then [DrawOp.vectors s.vectorArrowPointPositionBuffer.length] else []) := by
  simp only [renderEnd, renderPointElements, renderTriangleElements,
    renderRopeElements, renderSpringElements, renderStressedSpringElements,
    renderEphemeralPoints, renderVectors, renderGenericTexturesLoop_ops]

theorem filterMap_genericTextures_no_rope_spring
    (ccs : List (List TextureRenderPolygonVertex)) :
    (ccs.filterMap fun cc =>
        if cc.isEmpty then none
        else some (DrawOp.genericTextures cc.length)).filter
      (fun op => op.isRopeDraw || op.isSpringDraw) = [] := by
  rw [List.filter_eq_nil_iff]
  intro op hop
  simp only [List.mem_filterMap] at hop
  obtain ⟨cc, -, hcc⟩ := hop
  by_cases h : cc.isEmpty
  · simp [h] at hcc
  · simp [h] at hcc
    simp [← hcc, DrawOp.isRopeDraw, DrawOp.isSpringDraw]

theorem countP_ite_singleton_zero (p : DrawOp → Bool) (c : Prop) [Decidable c]
    (op : DrawOp) (h : p op = false) :
    (if c then [op] else []).countP p = 0 := by
  split <;> simp [h]

theorem countP_ite_singleton (p : DrawOp → Bool) (c : Prop) [Decidable c]
    (op : DrawOp) (h : p op = true) :
    (if c then [op] else []).countP p = if c then 1 else 0 := by
  split <;> simp [h]

theorem countP_ite_nil_singleton_zero (p : DrawOp → Bool) (c : Prop)
    [Decidable c] (op : DrawOp) (h : p op = false) :
    (if c then [] else [op]).countP p = 0 := by
  split <;> simp [h]

theorem countP_ite_ite_zero (p : DrawOp → Bool) (c d : Prop) [Decidable c]
    [Decidable d] (op : DrawOp) (h : p op = false) :
    (if c then (if d then [] else [op]) else []).countP p = 0 := by
  split
  · split <;> simp [h]
  · rfl

theorem filterMap_genericTextures_countP_zero (p : DrawOp → Bool)
    (hp : ∀ n, p (DrawOp.genericTextures n) = false)
    (ccs : List (List TextureRenderPolygonVertex)) :
    (ccs.filterMap fun cc =>
      if cc.isEmpty then none
      else some (DrawOp.genericTextures cc.length)).countP p = 0 := by
  rw [List.countP_eq_zero]
  intro op hop
  simp only [List.mem_filterMap] at hop
  obtain ⟨cc, -, hcc⟩ := hop
  split at hcc
  · exact absurd hcc (by simp)
  · rw [Option.some_inj] at hcc
    simp [← hcc, hp]

theorem filter_ite_singleton_keep (p : DrawOp → Bool) (c : Prop) [Decidable c]
    (op : DrawOp) (h : p op = true) :
    (if c then [op] else []).filter p = if c then [op] else [] := by
  split <;> simp [h]

theorem filter_ite_singleton_drop (p : DrawOp → Bool) (c : Prop) [Decidable c]
    (op : DrawOp) (h : p op = false) :
    (if c then [op] else []).filter p = [] := by
  split <;> simp [h]

theorem filter_ite_nil_singleton_drop (p : DrawOp → Bool) (c : Prop)
    [Decidable c] (op : DrawOp) (h : p op = false) :
    (if c then [] else [op]).filter p = [] := by
  split <;> simp [h]

theorem filter_ite_ite_drop (p : DrawOp → Bool) (c d : Prop) [Decidable c]
    [Decidable d] (op : DrawOp) (h : p op = false) :
    (if c then (if d then [] else [op]) else []).filter p = [] := by
  split
  · split <;> simp [h]
  · rfl

/-- The rope and spring draws of `RenderEnd`, in issue order: the
guard-protected first rope draw, then the spring draw, then the
guard-protected second rope draw. -/
theorem renderEnd_filter_ropes_springs (s : ShipRenderContext) :
    ((renderEnd s).2.filter fun op => op.isRopeDraw || op.isSpringDraw) =
      (if s.debugShipRenderMode ≠ DebugShipRenderMode.None
          ∨ s.shipRenderMode ≠ ShipRenderMode.Structure
        then [DrawOp.ropeElements s.ropeElementBuffer.length] else []) ++
      (if s.debugShipRenderMode = DebugShipRenderMode.Springs
          ∨ s.debugShipRenderMode = DebugShipRenderMode.EdgeSprings
          ∨ (s.debugShipRenderMode = DebugShipRenderMode.None
              ∧ (s.shipRenderMode = ShipRenderMode.Structure
                  ∨ s.shipRenderMode = ShipRenderMode.Texture))
        then [DrawOp.springElements
                (s.debugShipRenderMode = DebugShipRenderMode.None
                  ∧ s.shipRenderMode = ShipRenderMode.Texture)
                s.springElementBuffer.length] else []) ++
      (if s.debugShipRenderMode = DebugShipRenderMode.None
          ∧ s.shipRenderMode = ShipRenderMode.Structure
        then [DrawOp.ropeElements s.ropeElementBuffer.length] else []) := by
  rw [renderEnd_ops]
  simp only [List.filter_append]
  rw [filter_ite_singleton_drop _ _ _ rfl,
      filter_ite_singleton_drop _ _ _ rfl,
      filter_ite_singleton_keep _ _ _ rfl,
      filter_ite_singleton_keep _ _ _ rfl,
      filter_ite_singleton_keep _ _ _ rfl,
      filter_ite_ite_drop _ _ _ _ rfl,
      filter_ite_nil_singleton_drop _ _ _ rfl,
      filterMap_genericTextures_no_rope_spring,
      filter_ite_singleton_drop _ _ _ rfl]
  simp

/-! ## C10: the rope-element draw is issued exactly once -/

/-- **C10** (confirmed).  For every render context — hence for every
combination of ship render mode and debug render mode and every buffer
content — one `RenderEnd` invocation issues the rope-element draw exactly
once: the guard of the first rope draw (debug ≠ None ∨ ship ≠ Structure) and
the guard of the second (debug = None ∧ ship = Structure) are logical
complements. -/
theorem renderEnd_rope_draw_exactly_once (s : ShipRenderContext) :
    ((renderEnd s).2.countP DrawOp.isRopeDraw) = 1 := by
  rw [renderEnd_ops]
  simp only [List.countP_append]
  rw [countP_ite_singleton_zero _ _ _ rfl,
      countP_ite_singleton_zero _ _ _ rfl,
      countP_ite_singleton _ _ _ rfl,
      countP_ite_singleton_zero _ _ _ rfl,
      countP_ite_singleton _ _ _ rfl,
      countP_ite_ite_zero _ _ _ _ rfl,
      countP_ite_nil_singleton_zero _ _ _ rfl,
      filterMap_genericTextures_countP_zero _ (fun _ => rfl),
      countP_ite_singleton_zero _ _ _ rfl]
  by_cases hd : s.debugShipRenderMode = DebugShipRenderMode.None <;>
    by_cases hm : s.shipRenderMode = ShipRenderMode.Structure <;>
      simp [hd, hm]

/-! ## C2: ropes relative to springs -/

/-- **C2** (corrected).  In every mode combination *except* ship mode
`Structure` with debug mode `None`, `RenderEnd` draws ropes exactly once,
before any spring draw.  In the `Structure`/`None` branch the first rope draw
is skipped (its guard is the complement of the branch) and ropes are drawn
exactly once, *after* springs — not twice as claimed. -/
theorem renderEnd_rope_spring_order (s : ShipRenderContext) :
    (¬(s.debugShipRenderMode = DebugShipRenderMode.None
        ∧ s.shipRenderMode = ShipRenderMode.Structure) →
      ∃ tail,
        ((renderEnd s).2.filter fun op => op.isRopeDraw || op.isSpringDraw) =
          DrawOp.ropeElements s.ropeElementBuffer.length :: tail ∧
        ∀ op ∈ tail, op.isSpringDraw = true) ∧
    ((s.debugShipRenderMode = DebugShipRenderMode.None
        ∧ s.shipRenderMode = ShipRenderMode.Structure) →
      ((renderEnd s).2.filter fun op => op.isRopeDraw || op.isSpringDraw) =
        [DrawOp.springElements false s.springElementBuffer.length,
         DrawOp.ropeElements s.ropeElementBuffer.length]) := by
  constructor
  · intro h
    rw [renderEnd_filter_ropes_springs]
    rw [if_pos (by tauto), if_neg h]
    refine ⟨(if s.debugShipRenderMode = DebugShipRenderMode.Springs
          ∨ s.debugShipRenderMode = DebugShipRenderMode.EdgeSprings
          ∨ (s.debugShipRenderMode = DebugShipRenderMode.None
              ∧ (s.shipRenderMode = ShipRenderMode.Structure
                  ∨ s.shipRenderMode = ShipRenderMode.Texture))
        then [DrawOp.springElements
                (s.debugShipRenderMode = DebugShipRenderMode.None
                  ∧ s.shipRenderMode = ShipRenderMode.Texture)
                s.springElementBuffer.length] else []), by simp, ?_⟩
    intro op hop
    split at hop
    · simp at hop
      simp [hop, DrawOp.isSpringDraw]
    · simp at hop
  · intro h
    rw [renderEnd_filter_ropes_springs]
    rw [if_neg (by tauto), if_pos (Or.inr (Or.inr ⟨h.1, Or.inl h.2⟩)), if_pos h]
    have : (s.debugShipRenderMode = DebugShipRenderMode.None
        ∧ s.shipRenderMode = ShipRenderMode.Texture) = False := by
      simp [h.1, h.2]
    simp [this, h]

/-- Witness for `renderEnd_rope_spring_order`: the `Structure`/`None` branch
at the concrete scenario ship. -/
theorem renderEnd_rope_spring_order_witness :
    (structureModeContext.debugShipRenderMode = DebugShipRenderMode.None
      ∧ structureModeContext.shipRenderMode = ShipRenderMode.Structure) ∧
    ((renderEnd structureModeContext).2.filter fun op =>
        op.isRopeDraw || op.isSpringDraw) =
      [DrawOp.springElements false structureModeContext.springElementBuffer.length,
       DrawOp.ropeElements structureModeContext.ropeElementBuffer.length] :=
  ⟨by decide, (renderEnd_rope_spring_order structureModeContext).2 (by decide)⟩

/-- **C2** counterexample.  At the concrete scenario ship — ship mode
`Structure`, debug mode `None`, one rope element — `RenderEnd` issues exactly
one rope draw, not the two ("once before springs and a second time after
springs") the claim asserts for that branch. -/
theorem renderEnd_structure_none_single_rope_draw :
    structureModeContext.debugShipRenderMode = DebugShipRenderMode.None ∧
    structureModeContext.shipRenderMode = ShipRenderMode.Structure ∧
    ((renderEnd structureModeContext).2.countP DrawOp.isRopeDraw) = 1 := by
  decide

/-! ## C3: the Structure/None end-to-end draw order -/

/-- **C3** (corrected).  With ship mode `Structure`, debug mode `None`,
stressed springs off and no vector field, `RenderEnd` issues: triangles
(untextured), springs (untextured), ropes, ephemeral points (if any), then
one draw per non-empty generic-texture component — with no points-debug draw
and only a single rope draw, which comes *after* springs, not between
triangles and springs as claimed. -/
theorem renderEnd_structure_scenario_order (s : ShipRenderContext)
    (hd : s.debugShipRenderMode = DebugShipRenderMode.None)
    (hm : s.shipRenderMode = ShipRenderMode.Structure)
    (hss : s.showStressedSprings = false)
    (hv : s.vectorFieldRenderMode = VectorFieldRenderMode.None) :
    (renderEnd s).2 =
      [DrawOp.triangleElements false s.triangleElementBuffer.length,
       DrawOp.springElements false s.springElementBuffer.length,
       DrawOp.ropeElements s.ropeElementBuffer.length] ++
      (if s.ephemeralPoints.isEmpty then []
        else [DrawOp.ephemeralPoints s.ephemeralPoints.length]) ++
      (s.genericTextureConnectedComponents.filterMap fun cc =>
        if cc.isEmpty then none else some (DrawOp.genericTextures cc.length)) := by
  rw [renderEnd_ops]
  simp [hd, hm, hss, hv]

/-- Witness for `renderEnd_structure_scenario_order` at the concrete scenario
ship (4 points, 3 springs, 1 triangle, 1 rope). -/
theorem renderEnd_structure_scenario_order_witness :
    structureModeContext.debugShipRenderMode = DebugShipRenderMode.None ∧
    structureModeContext.shipRenderMode = ShipRenderMode.Structure ∧
    structureModeContext.showStressedSprings = false ∧
    structureModeContext.vectorFieldRenderMode = VectorFieldRenderMode.None ∧
    (renderEnd structureModeContext).2 =
      [DrawOp.triangleElements false
         structureModeContext.triangleElementBuffer.length,
       DrawOp.springElements false
         structureModeContext.springElementBuffer.length,
       DrawOp.ropeElements structureModeContext.ropeElementBuffer.length] ++
      (if structureModeContext.ephemeralPoints.isEmpty then []
        else [DrawOp.ephemeralPoints
                structureModeContext.ephemeralPoints.length]) ++
      (structureModeContext.genericTextureConnectedComponents.filterMap
        fun cc =>
          if cc.isEmpty then none
          else some (DrawOp.genericTextures cc.length)) :=
  ⟨by decide, by decide, by decide, by decide,
   renderEnd_structure_scenario_order structureModeContext (by decide)
     (by decide) (by decide) (by decide)⟩

/-- **C3** counterexample.  At the scenario ship the actual draw order is
triangles, springs, ropes — not the claimed triangles, ropes, springs. -/
theorem renderEnd_structure_scenario_springs_before_ropes :
    (renderEnd structureModeContext).2 =
      [DrawOp.triangleElements false 1, DrawOp.springElements false 3,
       DrawOp.ropeElements 1] ∧
    (renderEnd structureModeContext).2 ≠
      [DrawOp.triangleElements false 1, DrawOp.ropeElements 1,
       DrawOp.springElements false 3] := by
  decide

/-! ## C5: generic-texture buffer capacity -/

/-- **C5** (corrected).  Whenever a frame renders at least one non-empty
generic-texture component, `RenderEnd` leaves the allocated GPU vertex-buffer
capacity equal to that frame's peak `mGenericTextureMaxVertexBufferSize` —
which `RenderStart` resets to `0` each frame — so the capacity tracks the
per-frame peak exactly and shrinks when a later frame's peak is smaller. -/
theorem renderEnd_allocated_tracks_frame_peak (s : ShipRenderContext)
    (h : (s.genericTextureConnectedComponents.any fun cc => !cc.isEmpty) = true) :
    (renderEnd s).1.genericTextureAllocatedVertexBufferSize =
      s.genericTextureMaxVertexBufferSize := by
  simp only [renderEnd]
  rw [renderGenericTexturesLoop_allocated, if_pos h]

set_option maxRecDepth 1000000 in
/-- Witness for `renderEnd_allocated_tracks_frame_peak`: the mid-frame state
with one 6-vertex component uploaded. -/
theorem renderEnd_allocated_tracks_frame_peak_witness :
    (genericTextureUploadedContext.genericTextureConnectedComponents.any
      fun cc => !cc.isEmpty) = true ∧
    (renderEnd genericTextureUploadedContext).1.genericTextureAllocatedVertexBufferSize =
      genericTextureUploadedContext.genericTextureMaxVertexBufferSize :=
  ⟨by decide,
   renderEnd_allocated_tracks_frame_peak genericTextureUploadedContext
     (by decide)⟩

set_option maxRecDepth 1000000 in
/-- **C5** counterexample.  A frame with a 12-vertex peak grows the allocated
capacity to 12; the next frame, with a 6-vertex peak, reallocates it down to
6 — the capacity shrank below the earlier peak. -/
theorem genericTexture_capacity_shrinks :
    genericTextureTrace1.genericTextureAllocatedVertexBufferSize = 12 ∧
    genericTextureTrace2.genericTextureAllocatedVertexBufferSize = 6 := by
  decide

/-! ## C9: depth-layer projection -/

theorem layerIndex_inj (L L' : ShipLayer) (h : layerIndex L = layerIndex L') :
    L = L' := by
  cases L <;> cases L' <;> simp_all [layerIndex]

theorem layerIndex_lt_six (L : ShipLayer) : layerIndex L < 6 := by
  cases L <;> simp [layerIndex]

/-- **C9** (confirmed).  `UpdateOrthoMatrices` assigns the six fixed layers in
source order ropes, springs+triangles, stressed springs, points, generic
textures, vectors to layer indices 0-5; and, for a valid ship slot, any two
distinct (depth-plane, layer) combinations receive distinct depths, ordered
monotonically along the depth axis: a smaller `plane*6 + layerIndex` slot
lies at a strictly larger depth value — the `ShipRegionZStart = 1` (far) end
— so ropes (layer 0) sit nearer "far" and vectors (layer 5) nearer "near". -/
theorem depthLayer_matrices_distinct_ordered
    (shipCount maxMaxPlaneId shipId : Nat) (hs : shipId < shipCount)
    (plane plane' : Nat) (hp : plane ≤ maxMaxPlaneId)
    (hp' : plane' ≤ maxMaxPlaneId) (L L' : ShipLayer) :
    updateOrthoMatrices =
      [(ProgramType.ShipRopes, layerIndex ShipLayer.Ropes),
       (ProgramType.ShipTrianglesColor, layerIndex ShipLayer.SpringsTriangles),
       (ProgramType.ShipTrianglesTexture, layerIndex ShipLayer.SpringsTriangles),
       (ProgramType.ShipStressedSprings, layerIndex ShipLayer.StressedSprings),
       (ProgramType.ShipPointsColor, layerIndex ShipLayer.Points),
       (ProgramType.ShipGenericTextures, layerIndex ShipLayer.GenericTextures),
       (ProgramType.ShipVectors, layerIndex ShipLayer.Vectors)] ∧
    ((plane, L) ≠ (plane', L') →
      shipOrthoMatrixDepth shipCount maxMaxPlaneId shipId plane (layerIndex L) ≠
        shipOrthoMatrixDepth shipCount maxMaxPlaneId shipId plane'
          (layerIndex L')) ∧
    (plane * 6 + layerIndex L < plane' * 6 + layerIndex L' →
      shipOrthoMatrixDepth shipCount maxMaxPlaneId shipId plane'
          (layerIndex L') <
        shipOrthoMatrixDepth shipCount maxMaxPlaneId shipId plane
          (layerIndex L)) := by
  have hN : 0 < shipCount * (maxMaxPlaneId + 1) * nLayers :=
    Nat.mul_pos (Nat.mul_pos (by omega) (Nat.succ_pos _)) (by norm_num [nLayers])
  have mono : ∀ p l p' l' : Nat,
      (shipId * (maxMaxPlaneId + 1) + p) * nLayers + l
        < (shipId * (maxMaxPlaneId + 1) + p') * nLayers + l' →
      shipOrthoMatrixDepth shipCount maxMaxPlaneId shipId p' l' <
        shipOrthoMatrixDepth shipCount maxMaxPlaneId shipId p l := by
    intro p l p' l' hlt
    unfold shipOrthoMatrixDepth shipRegionZStart shipRegionZWidth
    have hNq : (0 : ℚ)
        < ((shipCount * (maxMaxPlaneId + 1) * nLayers : Nat) : ℚ) := by
      exact_mod_cast hN
    have hk : (((shipId * (maxMaxPlaneId + 1) + p) * nLayers + l + 1 : Nat) : ℚ)
        < (((shipId * (maxMaxPlaneId + 1) + p') * nLayers + l' + 1 : Nat) : ℚ) := by
      exact_mod_cast (by omega :
        (shipId * (maxMaxPlaneId + 1) + p) * nLayers + l + 1
          < (shipId * (maxMaxPlaneId + 1) + p') * nLayers + l' + 1)
    have hdiv := (div_lt_div_iff_of_pos_right hNq).mpr hk
    rw [mul_div_assoc, mul_div_assoc]
    linarith
  refine ⟨rfl, ?_, ?_⟩
  · intro hne
    have h6 : nLayers = 6 := rfl
    rcases Nat.lt_trichotomy
        ((shipId * (maxMaxPlaneId + 1) + plane) * nLayers + layerIndex L)
        ((shipId * (maxMaxPlaneId + 1) + plane') * nLayers + layerIndex L') with
      hlt | heq | hgt
    · exact (mono _ _ _ _ hlt).ne'
    · exfalso
      have hL := layerIndex_lt_six L
      have hL' := layerIndex_lt_six L'
      have hpp : plane = plane' ∧ layerIndex L = layerIndex L' := by
        rw [h6] at heq
        omega
      exact hne (by rw [hpp.1, layerIndex_inj L L' hpp.2])
    · exact (mono _ _ _ _ hgt).ne
  · intro hlt
    apply mono
    have h6 : nLayers = 6 := rfl
    rw [h6]
    omega

/-- Witness for `depthLayer_matrices_distinct_ordered`: one ship, two depth
planes, the ropes layer of plane 0 against the vectors layer of plane 1. -/
theorem depthLayer_matrices_distinct_ordered_witness :
    (0 : Nat) < 1 ∧ (0 : Nat) ≤ 1 ∧ (1 : Nat) ≤ 1 ∧
    (updateOrthoMatrices =
      [(ProgramType.ShipRopes, layerIndex ShipLayer.Ropes),
       (ProgramType.ShipTrianglesColor, layerIndex ShipLayer.SpringsTriangles),
       (ProgramType.ShipTrianglesTexture, layerIndex ShipLayer.SpringsTriangles),
       (ProgramType.ShipStressedSprings, layerIndex ShipLayer.StressedSprings),
       (ProgramType.ShipPointsColor, layerIndex ShipLayer.Points),
       (ProgramType.ShipGenericTextures, layerIndex ShipLayer.GenericTextures),
       (ProgramType.ShipVectors, layerIndex ShipLayer.Vectors)] ∧
    (((0 : Nat), ShipLayer.Ropes) ≠ ((1 : Nat), ShipLayer.Vectors) →
      shipOrthoMatrixDepth 1 1 0 0 (layerIndex ShipLayer.Ropes) ≠
        shipOrthoMatrixDepth 1 1 0 1 (layerIndex ShipLayer.Vectors)) ∧
    (0 * 6 + layerIndex ShipLayer.Ropes
        < 1 * 6 + layerIndex ShipLayer.Vectors →
      shipOrthoMatrixDepth 1 1 0 1 (layerIndex ShipLayer.Vectors) <
        shipOrthoMatrixDepth 1 1 0 0 (layerIndex ShipLayer.Ropes))) :=
  ⟨by decide, by decide, by decide,
   depthLayer_matrices_distinct_ordered 1 1 0 (by decide) 0 1 (by decide)
     (by decide) ShipLayer.Ropes ShipLayer.Vectors⟩

/-! ## C6 / C7: the vector-field overlay geometry -/

theorem vlength_pos_of_ne_zero (v : Vec2f) (h : v ≠ ((0 : ℝ), (0 : ℝ))) :
    0 < vlength v := by
  apply Real.sqrt_pos.mpr
  have h1 : v.1 ≠ 0 ∨ v.2 ≠ 0 := by
    by_contra hc
    push_neg at hc
    exact h (Prod.ext_iff.mpr ⟨hc.1, hc.2⟩)
  rcases h1 with h1 | h1
  · nlinarith [mul_self_pos.mpr h1, mul_self_nonneg v.2]
  · nlinarith [mul_self_pos.mpr h1, mul_self_nonneg v.1]

theorem normalise_eq_some (v : Vec2f) (h : v ≠ ((0 : ℝ), (0 : ℝ))) :
    normalise v = some (v.1 / vlength v, v.2 / vlength v) := by
  unfold normalise
  rw [if_neg (vlength_pos_of_ne_zero v h).ne']

theorem vlength_smul (u : Vec2f) (t : ℝ) (ht : 0 ≤ t) :
    vlength (smul u t) = vlength u * t := by
  unfold vlength smul
  dsimp only
  rw [show u.1 * t * (u.1 * t) + u.2 * t * (u.2 * t)
      = (u.1 * u.1 + u.2 * u.2) * t ^ 2 from by ring]
  rw [Real.sqrt_mul (by nlinarith [mul_self_nonneg u.1, mul_self_nonneg u.2]),
    Real.sqrt_sq ht]

theorem vlength_normalise_unit (v : Vec2f) (h : v ≠ ((0 : ℝ), (0 : ℝ))) :
    vlength (v.1 / vlength v, v.2 / vlength v) = 1 := by
  have hl : 0 < vlength v := vlength_pos_of_ne_zero v h
  have hS : vlength v * vlength v = v.1 * v.1 + v.2 * v.2 :=
    Real.mul_self_sqrt (by nlinarith [mul_self_nonneg v.1, mul_self_nonneg v.2])
  set l := vlength v with hldef
  unfold vlength
  dsimp only
  rw [show v.1 / l * (v.1 / l) + v.2 / l * (v.2 / l)
      = (v.1 * v.1 + v.2 * v.2) / (l * l) from by ring]
  rw [← hS, div_self (by positivity)]
  exact Real.sqrt_one

theorem segmentLength_vadd_smul (e u : Vec2f) (t : ℝ) :
    segmentLength e (vadd e (smul u t)) = vlength (smul u t) := by
  unfold segmentLength vadd smul vlength
  dsimp only
  congr 1
  ring

theorem rotatedDir_ne_zero_left (v : Vec2f) (h : v ≠ ((0 : ℝ), (0 : ℝ))) :
    ((-(dot v XMatrixLeft), -(dot v YMatrixLeft)) : Vec2f)
      ≠ ((0 : ℝ), (0 : ℝ)) := by
  intro hc
  apply h
  have h1 : -(dot v XMatrixLeft) = 0 := congrArg Prod.fst hc
  have h2 : -(dot v YMatrixLeft) = 0 := congrArg Prod.snd hc
  simp only [dot, XMatrixLeft, YMatrixLeft, CosAlphaLeftRight, SinAlphaLeft,
    neg_eq_zero, neg_neg] at h1 h2
  have hcs := Real.sin_sq_add_cos_sq (-2 * Real.pi / 8)
  refine Prod.ext_iff.mpr ⟨?_, ?_⟩
  · show v.1 = 0
    linear_combination Real.cos (-2 * Real.pi / 8) * h1
      - Real.sin (-2 * Real.pi / 8) * h2 - v.1 * hcs
  · show v.2 = 0
    linear_combination Real.sin (-2 * Real.pi / 8) * h1
      + Real.cos (-2 * Real.pi / 8) * h2 - v.2 * hcs

theorem rotatedDir_ne_zero_right (v : Vec2f) (h : v ≠ ((0 : ℝ), (0 : ℝ))) :
    ((-(dot v XMatrixRight), -(dot v YMatrixRight)) : Vec2f)
      ≠ ((0 : ℝ), (0 : ℝ)) := by
  intro hc
  apply h
  have h1 : -(dot v XMatrixRight) = 0 := congrArg Prod.fst hc
  have h2 : -(dot v YMatrixRight) = 0 := congrArg Prod.snd hc
  simp only [dot, XMatrixRight, YMatrixRight, SinAlphaRight, CosAlphaLeftRight,
    SinAlphaLeft, neg_eq_zero, neg_neg] at h1 h2
  have hcs := Real.sin_sq_add_cos_sq (-2 * Real.pi / 8)
  refine Prod.ext_iff.mpr ⟨?_, ?_⟩
  · show v.1 = 0
    linear_combination Real.cos (-2 * Real.pi / 8) * h1
      + Real.sin (-2 * Real.pi / 8) * h2 - v.1 * hcs
  · show v.2 = 0
    linear_combination (-Real.sin (-2 * Real.pi / 8)) * h1
      + Real.cos (-2 * Real.pi / 8) * h2 - v.2 * hcs

theorem uploadVectorsBuffer_length (samples : List (Vec2f × Vec2f)) (adj : ℝ) :
    (samples.flatMap fun pv => uploadVectorsSample pv.1 pv.2 adj).length
      = 6 * samples.length := by
  induction samples with
  | nil => rfl
  | cons a l ih =>
      simp only [List.flatMap_cons, List.length_append, ih, List.length_cons]
      rw [show (uploadVectorsSample a.1 a.2 adj).length = 6 from rfl]
      omega

/-- **C6** (corrected).  `UploadVectors` always produces `6 × count` buffer
points; for every sample whose vector is non-zero the six points form the
stem from `position` to `position + vector*lengthScale` followed by two
arrowhead strokes of length exactly `0.2` departing the stem endpoint.  The
length-`0.2` property fails for a zero vector (the arrowhead directions come
from normalising the zero vector), so the claim holds only under the
non-zero-vector hypothesis. -/
theorem uploadVectors_geometry (s : ShipRenderContext)
    (samples : List (Vec2f × Vec2f)) (lengthAdjustment : ℝ) (color : Vec4f)
    (h : ∀ pv ∈ samples, pv.2 ≠ ((0 : ℝ), (0 : ℝ))) :
    (uploadVectors s samples lengthAdjustment
        color).vectorArrowPointPositionBuffer.length = 6 * samples.length ∧
    ∀ pv ∈ samples, ∃ pLeft pRight : Vec2f,
      uploadVectorsSample pv.1 pv.2 lengthAdjustment =
        [some pv.1, some (vadd pv.1 (smul pv.2 lengthAdjustment)),
         some (vadd pv.1 (smul pv.2 lengthAdjustment)), some pLeft,
         some (vadd pv.1 (smul pv.2 lengthAdjustment)), some pRight] ∧
      segmentLength (vadd pv.1 (smul pv.2 lengthAdjustment)) pLeft = 0.2 ∧
      segmentLength (vadd pv.1 (smul pv.2 lengthAdjustment)) pRight = 0.2 := by
  constructor
  · exact uploadVectorsBuffer_length samples lengthAdjustment
  · intro pv hpv
    have hv := h pv hpv
    have hdL := rotatedDir_ne_zero_left pv.2 hv
    have hdR := rotatedDir_ne_zero_right pv.2 hv
    refine ⟨vadd (vadd pv.1 (smul pv.2 lengthAdjustment))
              (smul ((-(dot pv.2 XMatrixLeft), -(dot pv.2 YMatrixLeft)).1
                  / vlength (-(dot pv.2 XMatrixLeft), -(dot pv.2 YMatrixLeft)),
                (-(dot pv.2 XMatrixLeft), -(dot pv.2 YMatrixLeft)).2
                  / vlength (-(dot pv.2 XMatrixLeft), -(dot pv.2 YMatrixLeft)))
                0.2),
            vadd (vadd pv.1 (smul pv.2 lengthAdjustment))
              (smul ((-(dot pv.2 XMatrixRight), -(dot pv.2 YMatrixRight)).1
                  / vlength (-(dot pv.2 XMatrixRight), -(dot pv.2 YMatrixRight)),
                (-(dot pv.2 XMatrixRight), -(dot pv.2 YMatrixRight)).2
                  / vlength (-(dot pv.2 XMatrixRight), -(dot pv.2 YMatrixRight)))
                0.2),
            ?_, ?_, ?_⟩
    · simp only [uploadVectorsSample]
      rw [normalise_eq_some _ hdL, normalise_eq_some _ hdR]
      rfl
    · rw [segmentLength_vadd_smul, vlength_smul _ _ (by norm_num),
        vlength_normalise_unit _ hdL, one_mul]
    · rw [segmentLength_vadd_smul, vlength_smul _ _ (by norm_num),
        vlength_normalise_unit _ hdR, one_mul]

/-- Witness for `uploadVectors_geometry`: the spec's concrete instance —
`count = 1`, `position = (0,0)`, `vector = (1,0)`, `lengthScale = 1`. -/
theorem uploadVectors_geometry_witness :
    (∀ pv ∈ [((((0 : ℝ), (0 : ℝ)) : Vec2f), (((1 : ℝ), (0 : ℝ)) : Vec2f))],
      pv.2 ≠ ((0 : ℝ), (0 : ℝ))) ∧
    ((uploadVectors exampleContext
        [((((0 : ℝ), (0 : ℝ)) : Vec2f), (((1 : ℝ), (0 : ℝ)) : Vec2f))] 1
        default).vectorArrowPointPositionBuffer.length =
      6 * [((((0 : ℝ), (0 : ℝ)) : Vec2f),
            (((1 : ℝ), (0 : ℝ)) : Vec2f))].length ∧
    ∀ pv ∈ [((((0 : ℝ), (0 : ℝ)) : Vec2f), (((1 : ℝ), (0 : ℝ)) : Vec2f))],
      ∃ pLeft pRight : Vec2f,
        uploadVectorsSample pv.1 pv.2 1 =
          [some pv.1, some (vadd pv.1 (smul pv.2 1)),
           some (vadd pv.1 (smul pv.2 1)), some pLeft,
           some (vadd pv.1 (smul pv.2 1)), some pRight] ∧
        segmentLength (vadd pv.1 (smul pv.2 1)) pLeft = 0.2 ∧
        segmentLength (vadd pv.1 (smul pv.2 1)) pRight = 0.2) :=
  ⟨by norm_num,
   uploadVectors_geometry exampleContext
     [((((0 : ℝ), (0 : ℝ)) : Vec2f), (((1 : ℝ), (0 : ℝ)) : Vec2f))] 1 default
     (by norm_num)⟩

/-- **C6** counterexample.  For the zero-vector sample the two arrowhead
buffer entries are the NaN result of normalising the zero vector (`none`),
so no arrowhead segment of length `0.2` exists: the universally quantified
claim fails at `count = 1`, `position = (0,0)`, `vector = (0,0)`. -/
theorem uploadVectors_zero_vector_no_arrowhead :
    uploadVectorsSample ((0 : ℝ), (0 : ℝ)) ((0 : ℝ), (0 : ℝ)) 1 =
      [some ((0 : ℝ), (0 : ℝ)), some ((0 : ℝ), (0 : ℝ)),
       some ((0 : ℝ), (0 : ℝ)), none, some ((0 : ℝ), (0 : ℝ)), none] ∧
    ¬∃ pLeft pRight : Vec2f,
      uploadVectorsSample ((0 : ℝ), (0 : ℝ)) ((0 : ℝ), (0 : ℝ)) 1 =
        [some (((0 : ℝ), (0 : ℝ)) : Vec2f),
         some (vadd ((0 : ℝ), (0 : ℝ)) (smul ((0 : ℝ), (0 : ℝ)) 1)),
         some (vadd ((0 : ℝ), (0 : ℝ)) (smul ((0 : ℝ), (0 : ℝ)) 1)), some pLeft,
         some (vadd ((0 : ℝ), (0 : ℝ)) (smul ((0 : ℝ), (0 : ℝ)) 1)),
         some pRight] ∧
      segmentLength (vadd ((0 : ℝ), (0 : ℝ)) (smul ((0 : ℝ), (0 : ℝ)) 1))
        pLeft = 0.2 ∧
      segmentLength (vadd ((0 : ℝ), (0 : ℝ)) (smul ((0 : ℝ), (0 : ℝ)) 1))
        pRight = 0.2 := by
  have hbuf : uploadVectorsSample ((0 : ℝ), (0 : ℝ)) ((0 : ℝ), (0 : ℝ)) 1 =
      [some ((0 : ℝ), (0 : ℝ)), some ((0 : ℝ), (0 : ℝ)),
       some ((0 : ℝ), (0 : ℝ)), none, some ((0 : ℝ), (0 : ℝ)), none] := by
    simp only [uploadVectorsSample]
    norm_num [vadd, smul, dot, XMatrixLeft, YMatrixLeft, XMatrixRight,
      YMatrixRight, normalise, vlength]
  refine ⟨hbuf, ?_⟩
  rintro ⟨pLeft, pRight, heq, -⟩
  rw [hbuf] at heq
  simp at heq

/-- **C7**: evaluation of `UploadVectors` at the zero-vector failing input.
The sample is not skipped (all six points are emitted) and the arrowhead
endpoints are the unguarded NaN results of normalising the zero vector
(`none`), not clamped zero-length segments: the buffer receives NaN
coordinates. -/
theorem uploadVectors_zero_vector_not_guarded :
    (uploadVectors exampleContext
        [((((0 : ℝ), (0 : ℝ)) : Vec2f), (((0 : ℝ), (0 : ℝ)) : Vec2f))] 1
        default).vectorArrowPointPositionBuffer =
      [some ((0 : ℝ), (0 : ℝ)), some ((0 : ℝ), (0 : ℝ)),
       some ((0 : ℝ), (0 : ℝ)), none, some ((0 : ℝ), (0 : ℝ)), none] := by
  simp only [uploadVectors, List.flatMap_cons, List.flatMap_nil,
    List.append_nil]
  simp only [uploadVectorsSample]
  norm_num [vadd, smul, dot, XMatrixLeft, YMatrixLeft, XMatrixRight,
    YMatrixRight, normalise, vlength]

end ShipRender
